import Mathlib

/-!
Verification of the inventory application (`sw.py`) against its
natural-language specification.

The program keeps its state in an SQLite database with tables `users`,
`login_requests`, `login_log`, `items` and `transactions`; each helper
function opens a fresh connection, runs one statement, commits and closes.
We embed each table as a list of rows (in insertion order, matching
`SELECT *` on a table only ever appended to or updated in place) and each
helper function as a Lean function on those lists.  `AUTOINCREMENT` ids are
supplied by the caller as an explicit fresh id.  SHA-256 hashing
(`hash_text`) is kept abstract: every definition that hashes takes the
digest function as an explicit parameter, since the operations only ever
compare digests for equality.
-/

/-- A row of the `users` table (schema at sw.py lines 52-62):
`id, name (TEXT UNIQUE, default BINARY collation, i.e. byte-exact),
role, pin (the stored SHA-256 digest), approved`. -/
structure UserRow where
  id : Nat
  name : String
  role : String
  pin : String
  approved : Nat
deriving Repr, DecidableEq

/-- A row of the `items` table (schema at sw.py lines 143-154).  The schema
declares no UNIQUE constraint on any column other than the implicit
`id INTEGER PRIMARY KEY AUTOINCREMENT`. -/
structure ItemRow where
  id : Nat
  category : String
  name : String
  quantity : Int
  threshold : Int
deriving Repr, DecidableEq

/-- A row of the `transactions` table (schema at sw.py lines 157-169). -/
structure TransactionRow where
  id : Nat
  user_id : Nat
  item_id : Nat
  quantity_taken : Int
  timestamp : String
deriving Repr, DecidableEq

/-- A row of the `login_requests` table (schema at sw.py lines 66-76).
After its `CREATE TABLE`, this table is never written or read anywhere in
the program (the source comment at line 65 says it is no longer used). -/
structure LoginRequestRow where
  id : Nat
  user_id : Nat
  timestamp : String
  status : String
deriving Repr, DecidableEq

/-- A row of the `login_log` table (schema at sw.py lines 80-90). -/
structure LoginLogRow where
  id : Nat
  user_id : Nat
  username : String
  timestamp : String
deriving Repr, DecidableEq

/-- `authenticate(username, pin)` (sw.py lines 221-231): hash the PIN and
look up `SELECT id, role FROM users WHERE name=? AND pin=?` (byte-exact
comparison; `fetchone` returns the first matching row).  On a match the
role is returned immediately for every role, staff included; otherwise
`None`. -/
def authenticate (hash_text : String → String) (users : List UserRow)
    (username pin : String) : Option String :=
  let hashed := hash_text pin
  match users.find? (fun u => u.name == username && u.pin == hashed) with
  | some row => some row.role
  | none => none

/-- SQLite's `LOWER()`: lowercases the ASCII letters of a string, embedded
as a structural map of `Char.toLower` over the character list. -/
def sqlLower (s : String) : String := String.mk (s.data.map Char.toLower)

/-- `get_user_by_username(username)` (sw.py lines 329-335):
`SELECT id, name, role FROM users WHERE LOWER(name)=LOWER(?)`, first match
if any — the lookup is case-insensitive even though the UNIQUE constraint
on `users.name` is byte-exact. -/
def get_user_by_username (users : List UserRow) (username : String) :
    Option UserRow :=
  users.find? (fun u => sqlLower u.name == sqlLower username)

/-- `add_user(name, role, pin)` (sw.py lines 301-312): INSERT with
`approved = 1`; the only constraint that can fire an `IntegrityError` here
is `UNIQUE` on `users.name`, which under SQLite's default BINARY collation
rejects exactly a byte-identical existing name.  Returns the new table and
the boolean the function returns. -/
def add_user (hash_text : String → String) (users : List UserRow)
    (nextId : Nat) (name role pin : String) : List UserRow × Bool :=
  if users.any (fun u => u.name == name) then
    (users, false)
  else
    (users ++ [⟨nextId, name, role, hash_text pin, 1⟩], true)

/-- `add_item(category, name, quantity, threshold)` (sw.py lines 257-269):
plain INSERT.  The `items` schema has NOT NULL columns (always satisfied in
this typed model) and no UNIQUE constraint beyond the autoincrement primary
key, and the connection never enables foreign-key enforcement (SQLite
defaults to off), so the `sqlite3.IntegrityError` branch cannot fire:
the insert always succeeds and the function returns `True`. -/
def add_item (items : List ItemRow) (nextId : Nat) (category name : String)
    (quantity threshold : Int) : List ItemRow × Bool :=
  (items ++ [⟨nextId, category, name, quantity, threshold⟩], true)

/-- `update_item_quantity(item_id, quantity)` (sw.py lines 287-292):
`UPDATE items SET quantity=? WHERE id=?` — an unconditional overwrite of
every row whose id matches; a statement matching zero rows is a no-op and
raises no error. -/
def update_item_quantity (items : List ItemRow) (item_id : Nat)
    (quantity : Int) : List ItemRow :=
  items.map (fun it => if it.id == item_id then { it with quantity } else it)

/-- `delete_item(item_id)` (sw.py lines 294-299):
`DELETE FROM items WHERE id=?`; deleting zero rows raises no error. -/
def delete_item (items : List ItemRow) (item_id : Nat) : List ItemRow :=
  items.filter (fun it => !(it.id == item_id))

/-- `add_transaction(user_id, item_id, quantity_taken)` (sw.py lines
344-351): append-only INSERT with the current timestamp passed in. -/
def add_transaction (txs : List TransactionRow) (nextId : Nat)
    (user_id item_id : Nat) (quantity_taken : Int) (ts : String) :
    List TransactionRow :=
  txs ++ [⟨nextId, user_id, item_id, quantity_taken, ts⟩]

/-- Result of one press of the Take Item button: the items table, the
transactions table, and the reported outcome (`some new_qty` on the
success path, `none` when the handler shows the error message). -/
structure TakeResult where
  items : List ItemRow
  transactions : List TransactionRow
  outcome : Option Int
deriving Repr, DecidableEq

/-- The Take Item button handler (sw.py lines 606-615), run sequentially:
`selected_item` is the row of the chosen id as currently stored (the page
re-renders, so in the one-session sequential case the snapshot equals the
stored row).  `new_qty = quantity - take_qty`; if negative the handler
errors and changes nothing; otherwise it calls `update_item_quantity`,
then `get_user_by_username(st.session_state.username)` and, only when that
lookup succeeds, `add_transaction`. -/
def take_item (users : List UserRow) (items : List ItemRow)
    (txs : List TransactionRow) (nextTxId : Nat) (username : String)
    (item_id : Nat) (take_qty : Int) (ts : String) : TakeResult :=
  match items.find? (fun it => it.id == item_id) with
  | none => ⟨items, txs, none⟩
  | some selected_item =>
    let new_qty := selected_item.quantity - take_qty
    if new_qty < 0 then
      ⟨items, txs, none⟩
    else
      let items2 := update_item_quantity items item_id new_qty
      let txs2 :=
        match get_user_by_username users username with
        | some current_user =>
            add_transaction txs nextTxId current_user.id item_id take_qty ts
        | none => txs
      ⟨items2, txs2, some new_qty⟩

/-- One step of repeating the same Take Item press against the evolving
items and transactions tables (the other arguments are fixed by the
session). -/
def take_item_step (users : List UserRow) (nextTxId : Nat)
    (username : String) (item_id : Nat) (take_qty : Int) (ts : String)
    (s : List ItemRow × List TransactionRow) :
    List ItemRow × List TransactionRow :=
  let r := take_item users s.1 s.2 nextTxId username item_id take_qty ts
  (r.items, r.transactions)

/-- The read phase of the take flow (sw.py lines 592-605): the page render
queries the item row and shows its quantity; the button handler later uses
this snapshot as `selected_item[2]`. -/
def take_read (items : List ItemRow) (item_id : Nat) : Option Int :=
  (items.find? (fun it => it.id == item_id)).map (fun it => it.quantity)

/-- The write phase of the take flow (sw.py lines 606-611) applied to a
possibly stale snapshot quantity: `new_qty` is computed from the snapshot,
not from the stored row, and the write is an unconditional overwrite. -/
def take_write (items : List ItemRow) (item_id : Nat)
    (snapshot_qty take_qty : Int) : List ItemRow × Option Int :=
  let new_qty := snapshot_qty - take_qty
  if new_qty < 0 then
    (items, none)
  else
    (update_item_quantity items item_id new_qty, some new_qty)

/-- The persistent state touched by the login section. -/
structure LoginState where
  users : List UserRow
  login_requests : List LoginRequestRow
  login_log : List LoginLogRow
deriving Repr, DecidableEq

/-- One press of the Login button (sw.py lines 481-497): call
`authenticate`; on a role, look the user up case-insensitively and, when
found, append a `login_log` row, then store the role in the session
(returned here as the second component); on `None`, show the error and
change nothing.  No statement in this flow — or anywhere else in the
program — reads or writes `login_requests`. -/
def login_attempt (hash_text : String → String) (st : LoginState)
    (nextLogId : Nat) (username pin ts : String) :
    LoginState × Option String :=
  match authenticate hash_text st.users username pin with
  | some role =>
    let log2 :=
      match get_user_by_username st.users username with
      | some user_info => st.login_log ++ [⟨nextLogId, user_info.id, username, ts⟩]
      | none => st.login_log
    ({ st with login_log := log2 }, some role)
  | none => (st, none)

/-- `display_low_stock_alerts` (sw.py lines 439-455): iterate over
`get_items()` in stored order, appending `(name, qty, thresh)` whenever
`qty < thresh`.  The source's `int(...)`/`ValueError` guard models SQLite's
dynamic typing; the schema stores INTEGER, embedded here as `Int`, so the
conversion never fails. -/
def display_low_stock_alerts (items : List ItemRow) :
    List (String × Int × Int) :=
  items.foldl
    (fun low_stock item =>
      if item.quantity < item.threshold then
        low_stock ++ [(item.name, item.quantity, item.threshold)]
      else
        low_stock)
    []

/-! ## Claims -/

/-- C4: the low-stock view equals the input item list filtered to rows
with `quantity < threshold` (strict: `quantity = threshold` is excluded)
and projected to `(name, quantity, threshold)` — `List.filter` keeps the
input order, so no re-sorting happens. -/
theorem C4_low_stock_view (items : List ItemRow) :
    display_low_stock_alerts items =
      (items.filter (fun it => it.quantity < it.threshold)).map
        (fun it => (it.name, it.quantity, it.threshold)) := by
  suffices h : ∀ (l : List ItemRow) (acc : List (String × Int × Int)),
      l.foldl
        (fun low_stock item =>
          if item.quantity < item.threshold then
            low_stock ++ [(item.name, item.quantity, item.threshold)]
          else
            low_stock)
        acc =
        acc ++ (l.filter (fun it => it.quantity < it.threshold)).map
          (fun it => (it.name, it.quantity, it.threshold)) by
    simpa [display_low_stock_alerts] using h items []
  intro l
  induction l with
  | nil => simp
  | cons hd tl ih =>
    intro acc
    by_cases hq : hd.quantity < hd.threshold <;> simp [hq, ih, List.filter_cons]

/-- C10: `UPDATE`/`DELETE` statements matching no row are silent no-ops:
when no stored item has the given id, `update_item_quantity` and
`delete_item` return normally (their types admit no error outcome) and
leave every existing row unchanged. -/
theorem C10_missing_id_noop (items : List ItemRow) (item_id : Nat) (q : Int)
    (habs : ∀ it ∈ items, it.id ≠ item_id) :
    update_item_quantity items item_id q = items ∧
    delete_item items item_id = items := by
  constructor
  · unfold update_item_quantity
    induction items with
    | nil => simp
    | cons hd tl ih =>
      have hhd : hd.id ≠ item_id := habs hd (by simp)
      have htl : ∀ it ∈ tl, it.id ≠ item_id := fun it hm => habs it (by simp [hm])
      rw [List.map_cons, ih htl]
      simp [hhd]
  · unfold delete_item
    refine List.filter_eq_self.mpr ?_
    intro it hm
    simp [habs it hm]

/-- Witness for `C10_missing_id_noop` at a concrete one-item table and a
missing id. -/
theorem C10_missing_id_noop_witness :
    update_item_quantity [⟨1, "c", "Bulb", 5, 2⟩] 2 9 = [⟨1, "c", "Bulb", 5, 2⟩] ∧
    delete_item [⟨1, "c", "Bulb", 5, 2⟩] 2 = [⟨1, "c", "Bulb", 5, 2⟩] :=
  C10_missing_id_noop [⟨1, "c", "Bulb", 5, 2⟩] 2 9 (by decide)

/-- C3 counterexample: the core `update_item_quantity` accepts a negative
new quantity — setting item 1 to `-3` stores `-3`, so the core does not
enforce `new_quantity ≥ 0` (only the UI widget's `min_value=0` does). -/
theorem C3_counterexample :
    update_item_quantity [⟨1, "c", "Bulb", 5, 2⟩] 1 (-3)
      = [⟨1, "c", "Bulb", -3, 2⟩] ∧
    ¬ (0 : Int) ≤ (-3 : Int) := by decide

/-- C3 amended: `update_item_quantity` is an unconditional overwrite with
no bound check in the core: for every new quantity `q`, negative included,
each stored row with the given id ends up with quantity `q` and every
other row is kept as it was.  Non-negativity is enforced only by the UI
layer. -/
theorem C3_amended_unconditional_overwrite (items : List ItemRow)
    (item_id : Nat) (q : Int) :
    ∀ it ∈ items,
      (it.id = item_id →
        { it with quantity := q } ∈ update_item_quantity items item_id q) ∧
      (it.id ≠ item_id → it ∈ update_item_quantity items item_id q) := by
  intro it hm
  constructor
  · intro hid
    exact List.mem_map.mpr ⟨it, hm, by simp [hid]⟩
  · intro hid
    exact List.mem_map.mpr ⟨it, hm, by simp [hid]⟩

/-- Witness for `C3_amended_unconditional_overwrite`: the negative overwrite
of item 1 is present in the result. -/
theorem C3_amended_unconditional_overwrite_witness :
    ({ id := 1, category := "c", name := "Bulb", quantity := -3,
       threshold := 2 } : ItemRow)
      ∈ update_item_quantity [⟨1, "c", "Bulb", 5, 2⟩] 1 (-3) :=
  (C3_amended_unconditional_overwrite [⟨1, "c", "Bulb", 5, 2⟩] 1 (-3)
    ⟨1, "c", "Bulb", 5, 2⟩ (by decide)).1 (by decide)

/-- C6 counterexample: with an item named "Bulb" already stored, `add_item`
with the same name succeeds (returns `true`) and appends a second "Bulb"
row, rather than failing with a duplicate-entity error and leaving the
table unchanged. -/
theorem C6_counterexample :
    add_item [⟨1, "c", "Bulb", 10, 5⟩] 2 "c" "Bulb" 3 1
      = ([⟨1, "c", "Bulb", 10, 5⟩, ⟨2, "c", "Bulb", 3, 1⟩], true) := by decide

/-- C6 amended: the `items` schema has no unique key on the name, so
`add_item` never reports a duplicate-entity error: even when an item with
the same name already exists it succeeds and appends the new row, keeping
every old row. -/
theorem C6_amended_no_duplicate_check (items : List ItemRow) (nextId : Nat)
    (category name : String) (quantity threshold : Int)
    (_hdup : ∃ it ∈ items, it.name = name) :
    (add_item items nextId category name quantity threshold).2 = true ∧
    (add_item items nextId category name quantity threshold).1
      = items ++ [⟨nextId, category, name, quantity, threshold⟩] :=
  ⟨rfl, rfl⟩

/-- Witness for `C6_amended_no_duplicate_check` at a table already holding
a "Bulb". -/
theorem C6_amended_no_duplicate_check_witness :
    (add_item [⟨1, "c", "Bulb", 10, 5⟩] 2 "c" "Bulb" 3 1).2 = true ∧
    (add_item [⟨1, "c", "Bulb", 10, 5⟩] 2 "c" "Bulb" 3 1).1
      = [⟨1, "c", "Bulb", 10, 5⟩] ++ [⟨2, "c", "Bulb", 3, 1⟩] :=
  C6_amended_no_duplicate_check [⟨1, "c", "Bulb", 10, 5⟩] 2 "c" "Bulb" 3 1
    ⟨⟨1, "c", "Bulb", 10, 5⟩, by decide, rfl⟩

/-- C2: sequential take semantics.  With `it` the stored row found for the
chosen id (quantity `q = it.quantity`): a take of `take_qty ≤ q` succeeds,
reports the new value `q - take_qty` and stores it; a take of
`take_qty > q` is rejected (`outcome = none`, the "Not enough stock"
message) leaving items and transactions exactly as they were; and
repeating the rejected press any number of times never changes the
tables. -/
theorem C2_take_semantics (users : List UserRow) (items : List ItemRow)
    (txs : List TransactionRow) (nextTxId : Nat) (username : String)
    (item_id : Nat) (take_qty : Int) (ts : String) (it : ItemRow)
    (hfind : items.find? (fun r => r.id == item_id) = some it) :
    (take_qty ≤ it.quantity →
      (take_item users items txs nextTxId username item_id take_qty ts).outcome
          = some (it.quantity - take_qty) ∧
      (take_item users items txs nextTxId username item_id take_qty ts).items
          = update_item_quantity items item_id (it.quantity - take_qty)) ∧
    (it.quantity < take_qty →
      take_item users items txs nextTxId username item_id take_qty ts
        = ⟨items, txs, none⟩) ∧
    (it.quantity < take_qty → ∀ n : Nat,
      (take_item_step users nextTxId username item_id take_qty ts)^[n]
          (items, txs) = (items, txs)) := by
  refine ⟨?_, ?_, ?_⟩
  · intro hle
    have hneg : ¬ it.quantity - take_qty < 0 := by omega
    cases hu : get_user_by_username users username <;>
      simp [take_item, hfind, hneg, hu]
  · intro hgt
    have hneg : it.quantity - take_qty < 0 := by omega
    simp [take_item, hfind, hneg]
  · intro hgt n
    have hfix : take_item_step users nextTxId username item_id take_qty ts
        (items, txs) = (items, txs) := by
      have hneg : it.quantity - take_qty < 0 := by omega
      simp [take_item_step, take_item, hfind, hneg]
    exact Function.iterate_fixed hfix n

/-- Witness for `C2_take_semantics`: taking 3 from a stored quantity of 10
reports and stores 7. -/
theorem C2_take_semantics_witness :
    (take_item [⟨1, "Staff1", "staff", "h", 1⟩] [⟨1, "c", "Bulb", 10, 5⟩]
        [] 1 "Staff1" 1 3 "t").outcome = some (10 - 3) ∧
    (take_item [⟨1, "Staff1", "staff", "h", 1⟩] [⟨1, "c", "Bulb", 10, 5⟩]
        [] 1 "Staff1" 1 3 "t").items
      = update_item_quantity [⟨1, "c", "Bulb", 10, 5⟩] 1 (10 - 3) :=
  (C2_take_semantics [⟨1, "Staff1", "staff", "h", 1⟩] [⟨1, "c", "Bulb", 10, 5⟩]
      [] 1 "Staff1" 1 3 "t" ⟨1, "c", "Bulb", 10, 5⟩ (by decide)).1 (by decide)

/-- C5 counterexample: when the session username no longer matches any user
row (e.g. the account was deleted or renamed after login), a take of 2 from
a stored quantity of 5 still succeeds and stores 3, but NO transaction row
is appended — the decrement is applied without a matching Transaction
record, so the two writes are not one atomic unit. -/
theorem C5_counterexample :
    take_item [⟨1, "Admin1", "admin", "h", 1⟩] [⟨1, "c", "Bulb", 5, 2⟩]
        [] 1 "Staff1" 1 2 "t"
      = ⟨[⟨1, "c", "Bulb", 3, 2⟩], [], some 3⟩ := by decide

/-- C5 amended: a successful take always applies the decrement, and appends
exactly one Transaction row (with `quantity_taken` equal to the amount)
precisely when `get_user_by_username` still resolves the session username;
when that lookup fails the decrement is applied with no transaction row.
The two writes are separate statements, not one atomic unit. -/
theorem C5_amended_transaction_on_success (users : List UserRow)
    (items : List ItemRow) (txs : List TransactionRow) (nextTxId : Nat)
    (username : String) (item_id : Nat) (take_qty : Int) (ts : String)
    (it : ItemRow)
    (hfind : items.find? (fun r => r.id == item_id) = some it)
    (hle : take_qty ≤ it.quantity) :
    (take_item users items txs nextTxId username item_id take_qty ts).items
      = update_item_quantity items item_id (it.quantity - take_qty) ∧
    (∀ u : UserRow, get_user_by_username users username = some u →
      (take_item users items txs nextTxId username item_id take_qty ts).transactions
        = txs ++ [⟨nextTxId, u.id, item_id, take_qty, ts⟩]) ∧
    (get_user_by_username users username = none →
      (take_item users items txs nextTxId username item_id take_qty ts).transactions
        = txs) := by
  have hneg : ¬ it.quantity - take_qty < 0 := by omega
  refine ⟨?_, ?_, ?_⟩
  · cases hu : get_user_by_username users username <;>
      simp [take_item, hfind, hneg, hu]
  · intro u hu
    simp [take_item, hfind, hneg, hu, add_transaction]
  · intro hu
    simp [take_item, hfind, hneg, hu]

/-- Witness for `C5_amended_transaction_on_success`: with the session user
present, taking 2 from 5 stores 3 and appends the one transaction row. -/
theorem C5_amended_transaction_on_success_witness :
    (take_item [⟨7, "Staff1", "staff", "h", 1⟩] [⟨1, "c", "Bulb", 5, 2⟩]
        [] 4 "Staff1" 1 2 "t").items
      = update_item_quantity [⟨1, "c", "Bulb", 5, 2⟩] 1 (5 - 2) ∧
    (take_item [⟨7, "Staff1", "staff", "h", 1⟩] [⟨1, "c", "Bulb", 5, 2⟩]
        [] 4 "Staff1" 1 2 "t").transactions
      = [] ++ [⟨4, 7, 1, 2, "t"⟩] :=
  have h := C5_amended_transaction_on_success
    [⟨7, "Staff1", "staff", "h", 1⟩] [⟨1, "c", "Bulb", 5, 2⟩] [] 4 "Staff1"
    1 2 "t" ⟨1, "c", "Bulb", 5, 2⟩ (by decide) (by decide)
  ⟨h.1, h.2.1 ⟨7, "Staff1", "staff", "h", 1⟩ (by decide)⟩

/-- C7 counterexample: the take flow is a snapshot read (page render)
followed by a write (button handler).  In the interleaving where both
sessions read before either writes — read1, read2, write1, write2 — two
takes of 1 unit against an item holding exactly 1 unit BOTH succeed, each
reporting new quantity 0, refuting "exactly one success and one
InsufficientStock, never both succeeding". -/
theorem C7_counterexample :
    take_read [⟨1, "c", "Bulb", 1, 0⟩] 1 = some 1 ∧
    (take_write [⟨1, "c", "Bulb", 1, 0⟩] 1 1 1).2 = some 0 ∧
    (take_write (take_write [⟨1, "c", "Bulb", 1, 0⟩] 1 1 1).1 1 1 1).2
      = some 0 := by decide

/-- C7 amended: the check-and-decrement is not atomic — it is a read of a
rendered snapshot followed by an unconditional overwrite computed from that
snapshot.  For every item holding exactly `q ≥ 0` units, under the
interleaving read1, read2, write1, write2 both concurrent `take(q)` calls
succeed with reported new quantity 0, and the final stored quantity is 0
even though `2q` units were handed out of a stock of `q`. -/
theorem C7_amended_nonatomic_take (item_id : Nat) (category name : String)
    (q threshold : Int) (_hq : 0 ≤ q) :
    take_read [⟨item_id, category, name, q, threshold⟩] item_id = some q ∧
    (take_write [⟨item_id, category, name, q, threshold⟩] item_id q q).2
      = some 0 ∧
    (take_write (take_write [⟨item_id, category, name, q, threshold⟩]
        item_id q q).1 item_id q q).2 = some 0 ∧
    (take_write (take_write [⟨item_id, category, name, q, threshold⟩]
        item_id q q).1 item_id q q).1
      = [⟨item_id, category, name, 0, threshold⟩] := by
  have h0 : ¬ (q - q : Int) < 0 := by omega
  refine ⟨?_, ?_, ?_, ?_⟩ <;>
    simp [take_read, take_write, update_item_quantity, h0]

/-- Witness for `C7_amended_nonatomic_take` at one unit of stock. -/
theorem C7_amended_nonatomic_take_witness :
    take_read [⟨1, "c", "Bulb", 1, 0⟩] 1 = some 1 ∧
    (take_write [⟨1, "c", "Bulb", 1, 0⟩] 1 1 1).2 = some 0 ∧
    (take_write (take_write [⟨1, "c", "Bulb", 1, 0⟩] 1 1 1).1 1 1 1).2
      = some 0 ∧
    (take_write (take_write [⟨1, "c", "Bulb", 1, 0⟩] 1 1 1).1 1 1 1).1
      = [⟨1, "c", "Bulb", 0, 0⟩] :=
  C7_amended_nonatomic_take 1 "c" "Bulb" 1 0 (by decide)

/-- C8 counterexample: the `UNIQUE` constraint on `users.name` compares
bytes exactly, so with "alice" already stored, `add_user` accepts "Alice":
it returns `true` and the table ends with two rows whose names are equal up
to letter case but not byte-equal — user names are not unique
case-insensitively. -/
theorem C8_counterexample :
    (add_user (fun s => s) [⟨1, "alice", "staff", "p", 1⟩]
        2 "Alice" "staff" "p").2 = true ∧
    (add_user (fun s => s) [⟨1, "alice", "staff", "p", 1⟩]
        2 "Alice" "staff" "p").1
      = [⟨1, "alice", "staff", "p", 1⟩, ⟨2, "Alice", "staff", "p", 1⟩] ∧
    "alice" ≠ "Alice" ∧ sqlLower "alice" = sqlLower "Alice" := by decide

/-- C8 amended: user names are unique case-SENSITIVELY: `add_user` succeeds
exactly when no stored user has a byte-identical name, and it preserves the
invariant that stored names are pairwise distinct as exact strings.  Names
that differ only in letter case may coexist (even though
`get_user_by_username` then looks up case-insensitively). -/
theorem C8_amended_case_sensitive_unique (hash_text : String → String)
    (users : List UserRow) (nextId : Nat) (name role pin : String) :
    ((add_user hash_text users nextId name role pin).2 = true ↔
      ∀ u ∈ users, u.name ≠ name) ∧
    (users.Pairwise (fun a b => a.name ≠ b.name) →
      ((add_user hash_text users nextId name role pin).1).Pairwise
        (fun a b => a.name ≠ b.name)) := by
  constructor
  · by_cases hany : users.any (fun u => u.name == name) = true
    · rw [add_user, if_pos hany]
      simp only [List.any_eq_true, beq_iff_eq] at hany
      obtain ⟨u, hm, hu⟩ := hany
      refine iff_of_false (by simp) ?_
      intro hall
      exact hall u hm hu
    · rw [add_user, if_neg hany]
      refine iff_of_true rfl ?_
      intro u hm hu
      exact hany (List.any_eq_true.mpr ⟨u, hm, by simp [hu]⟩)
  · intro hpw
    by_cases hany : users.any (fun u => u.name == name) = true
    · rw [add_user, if_pos hany]
      exact hpw
    · rw [add_user, if_neg hany]
      rw [List.pairwise_append]
      refine ⟨hpw, List.pairwise_singleton _ _, ?_⟩
      intro a ha b hb
      simp only [List.mem_singleton] at hb
      subst hb
      intro heq
      simp only at heq
      exact hany (List.any_eq_true.mpr ⟨a, ha, by simp [heq]⟩)

/-- Witness for `C8_amended_case_sensitive_unique`: adding the fresh name
"Bob" next to "alice" succeeds and keeps names pairwise distinct. -/
theorem C8_amended_case_sensitive_unique_witness :
    (add_user (fun s => s) [⟨1, "alice", "staff", "p", 1⟩]
        2 "Bob" "staff" "q").2 = true ∧
    ((add_user (fun s => s) [⟨1, "alice", "staff", "p", 1⟩]
        2 "Bob" "staff" "q").1).Pairwise (fun a b => a.name ≠ b.name) :=
  ⟨(C8_amended_case_sensitive_unique (fun s => s)
      [⟨1, "alice", "staff", "p", 1⟩] 2 "Bob" "staff" "q").1.mpr (by decide),
   (C8_amended_case_sensitive_unique (fun s => s)
      [⟨1, "alice", "staff", "p", 1⟩] 2 "Bob" "staff" "q").2 (by decide)⟩

/-- C9: round trip of user creation and authentication.  For a name no
existing user bears (byte-exactly), `add_user(name, role, pin)` succeeds,
`authenticate(name, pin)` then returns exactly that role, and
`authenticate(name, pin2)` fails (returns `none`, i.e. no match) for every
`pin2` whose digest differs from `pin`'s. -/
theorem C9_add_user_authenticate (hash_text : String → String)
    (users : List UserRow) (nextId : Nat) (name role pin : String)
    (hfresh : ∀ u ∈ users, u.name ≠ name) :
    (add_user hash_text users nextId name role pin).2 = true ∧
    authenticate hash_text (add_user hash_text users nextId name role pin).1
      name pin = some role ∧
    ∀ pin2 : String, hash_text pin2 ≠ hash_text pin →
      authenticate hash_text (add_user hash_text users nextId name role pin).1
        name pin2 = none := by
  have hany : users.any (fun u => u.name == name) = false := by
    rw [List.any_eq_false]
    intro u hm
    simp [hfresh u hm]
  have hres : add_user hash_text users nextId name role pin
      = (users ++ [⟨nextId, name, role, hash_text pin, 1⟩], true) := by
    rw [add_user, if_neg (by simp [hany])]
  refine ⟨by rw [hres], ?_, ?_⟩
  · rw [hres]
    have hnone : users.find?
        (fun u => u.name == name && u.pin == hash_text pin) = none := by
      rw [List.find?_eq_none]
      intro u hm
      simp [hfresh u hm]
    simp [authenticate, List.find?_append, hnone]
  · intro pin2 hne
    rw [hres]
    have hnone : users.find?
        (fun u => u.name == name && u.pin == hash_text pin2) = none := by
      rw [List.find?_eq_none]
      intro u hm
      simp [hfresh u hm]
    simp [authenticate, List.find?_append, hnone, Ne.symm hne]

/-- Witness for `C9_add_user_authenticate` with the digest function
suffixing a hash mark: the right PIN logs in with the stored role, a PIN
with a different digest does not. -/
theorem C9_add_user_authenticate_witness :
    (add_user (fun s => s ++ "#") [] 1 "alice" "staff" "a").2 = true ∧
    authenticate (fun s => s ++ "#")
      (add_user (fun s => s ++ "#") [] 1 "alice" "staff" "a").1 "alice" "a"
      = some "staff" ∧
    authenticate (fun s => s ++ "#")
      (add_user (fun s => s ++ "#") [] 1 "alice" "staff" "a").1 "alice" "b"
      = none :=
  have h := C9_add_user_authenticate (fun s => s ++ "#") [] 1 "alice" "staff"
    "a" (by decide)
  ⟨h.1, h.2.1, h.2.2 "b" (by decide)⟩

/-- C1 counterexample: a staff user with matching credentials and no
LoginRequest rows at all (in particular no approved one) is logged in
immediately with role "staff" — not Pending — and the login flow leaves
`login_requests` empty: no pending request row is inserted by the
attempt. -/
theorem C1_counterexample :
    (login_attempt (fun s => s ++ "#")
        ⟨[⟨1, "Staff1", "staff", "staff1pass#", 1⟩], [], []⟩
        1 "Staff1" "staff1pass" "t").2 = some "staff" ∧
    (login_attempt (fun s => s ++ "#")
        ⟨[⟨1, "Staff1", "staff", "staff1pass#", 1⟩], [], []⟩
        1 "Staff1" "staff1pass" "t").1.login_requests = [] := by decide

/-- C1 amended: the login flow performs no LoginRequest bookkeeping.  When
the name/PIN pair matches a user row whose role is "staff", the attempt
returns role staff immediately (the code has no Pending outcome — its only
failure value is `none`, invalid credentials), it leaves `login_requests`
and `users` unchanged, and an identical second attempt succeeds again: no
approval is required, inserted, or consumed. -/
theorem C1_amended_staff_auto_login (hash_text : String → String)
    (st : LoginState) (nextLogId nextLogId2 : Nat)
    (username pin ts ts2 : String) (u : UserRow)
    (hfind : st.users.find?
        (fun r => r.name == username && r.pin == hash_text pin) = some u)
    (hrole : u.role = "staff") :
    (login_attempt hash_text st nextLogId username pin ts).2 = some "staff" ∧
    (login_attempt hash_text st nextLogId username pin ts).1.login_requests
      = st.login_requests ∧
    (login_attempt hash_text st nextLogId username pin ts).1.users
      = st.users ∧
    (login_attempt hash_text
        (login_attempt hash_text st nextLogId username pin ts).1
        nextLogId2 username pin ts2).2 = some "staff" := by
  have hauth : authenticate hash_text st.users username pin = some "staff" := by
    simp [authenticate, hfind, hrole]
  have husers : (login_attempt hash_text st nextLogId username pin ts).1.users
      = st.users := by
    cases hu : get_user_by_username st.users username <;>
      simp [login_attempt, hauth, hu]
  have hreq :
      (login_attempt hash_text st nextLogId username pin ts).1.login_requests
        = st.login_requests := by
    cases hu : get_user_by_username st.users username <;>
      simp [login_attempt, hauth, hu]
  have hout : (login_attempt hash_text st nextLogId username pin ts).2
      = some "staff" := by
    simp [login_attempt, hauth]
  refine ⟨hout, hreq, husers, ?_⟩
  have hauth2 : authenticate hash_text
      (login_attempt hash_text st nextLogId username pin ts).1.users
      username pin = some "staff" := by
    rw [husers]
    exact hauth
  generalize (login_attempt hash_text st nextLogId username pin ts).1 = st2
    at hauth2 ⊢
  simp [login_attempt, hauth2]

/-- Witness for `C1_amended_staff_auto_login` at the seeded staff user with
an empty request table. -/
theorem C1_amended_staff_auto_login_witness :
    (login_attempt (fun s => s ++ "#")
        ⟨[⟨1, "Staff1", "staff", "staff1pass#", 1⟩], [], []⟩
        1 "Staff1" "staff1pass" "t").2 = some "staff" ∧
    (login_attempt (fun s => s ++ "#")
        ⟨[⟨1, "Staff1", "staff", "staff1pass#", 1⟩], [], []⟩
        1 "Staff1" "staff1pass" "t").1.login_requests
      = (⟨[⟨1, "Staff1", "staff", "staff1pass#", 1⟩], [], []⟩ :
          LoginState).login_requests ∧
    (login_attempt (fun s => s ++ "#")
        ⟨[⟨1, "Staff1", "staff", "staff1pass#", 1⟩], [], []⟩
        1 "Staff1" "staff1pass" "t").1.users
      = (⟨[⟨1, "Staff1", "staff", "staff1pass#", 1⟩], [], []⟩ :
          LoginState).users ∧
    (login_attempt (fun s => s ++ "#")
        (login_attempt (fun s => s ++ "#")
          ⟨[⟨1, "Staff1", "staff", "staff1pass#", 1⟩], [], []⟩
          1 "Staff1" "staff1pass" "t").1
        2 "Staff1" "staff1pass" "t2").2 = some "staff" :=
  C1_amended_staff_auto_login (fun s => s ++ "#")
    ⟨[⟨1, "Staff1", "staff", "staff1pass#", 1⟩], [], []⟩ 1 2
    "Staff1" "staff1pass" "t" "t2"
    ⟨1, "Staff1", "staff", "staff1pass#", 1⟩ (by decide) rfl
